import Mathlib

set_option maxRecDepth 8192

/-!
Verification of the CoverCraft AI two-stage prompt-orchestration pipeline.

The development shallowly embeds the deterministic parts of the repository:
the post-processing validation of the CV adaptation flow (strictest revision,
src/ai/flows/cv-adaptation.ts, the middle revision with ATS compliance),
the link-append post-processing of the cover letter flow
(src/ai/flows/cover-letter-generation.ts, second revision), the orchestration
handler and the form schema (src/app/page.tsx).  Model invocations are
suspension points on an external service; they are represented by explicit
arguments (the model output, or an Except value for a rejected call), so every
definition below is the deterministic code that runs around those calls.
-/

/-- Character class of the JavaScript regular-expression escape \s, used by
split on whitespace runs in the adaptation flow word count.  The full ECMA-262
WhiteSpace and LineTerminator set. -/
def jsWhitespace (c : Char) : Bool :=
  decide (c.toNat = 0x09) || decide (c.toNat = 0x0A) || decide (c.toNat = 0x0B) ||
  decide (c.toNat = 0x0C) || decide (c.toNat = 0x0D) || decide (c.toNat = 0x20) ||
  decide (c.toNat = 0xA0) || decide (c.toNat = 0x1680) ||
  (decide (0x2000 ≤ c.toNat) && decide (c.toNat ≤ 0x200A)) ||
  decide (c.toNat = 0x2028) || decide (c.toNat = 0x2029) || decide (c.toNat = 0x202F) ||
  decide (c.toNat = 0x205F) || decide (c.toNat = 0x3000) || decide (c.toNat = 0xFEFF)

/-- Worker for jsSplitWhitespace.  prevWs records whether the previous
character was whitespace (so that a run of whitespace produces a single
separator); acc holds the characters of the current token in reverse. -/
def jsSplitWsAux (prevWs : Bool) (acc : List Char) : List Char → List String
  | [] => [String.mk acc.reverse]
  | c :: rest =>
    if jsWhitespace c then
      if prevWs then jsSplitWsAux true [] rest
      else String.mk acc.reverse :: jsSplitWsAux true [] rest
    else jsSplitWsAux false (c :: acc) rest

/-- Model of the JavaScript expression s.split(new RegExp followed by the
whitespace-run pattern), as used in the adaptation flow:
the string is cut at every maximal run of whitespace, and a leading or a
trailing run contributes an empty boundary token.  On the empty string the
result is a single empty token, exactly as in JavaScript. -/
def jsSplitWhitespace (s : String) : List String :=
  jsSplitWsAux false [] s.data

/-- Model of the JavaScript method call s.includes(pat): pat occurs in s as a
contiguous substring. -/
def containsStr (s pat : String) : Bool :=
  decide (pat.data <:+: s.data)

/-- After an opening bracket, the regular expression of the adaptation flow
needs at least one character that is not a closing bracket, followed
eventually by a closing bracket with no closing bracket in between. -/
def bracketBody : List Char → Bool
  | [] => false
  | d :: rest => !decide (d = ']') && rest.contains ']'

/-- Model of placeholderRegex.test from the adaptation flow: the regular
expression matching an opening bracket, one or more characters other than a
closing bracket, then a closing bracket, tested anywhere in the string. -/
def hasPlaceholder : List Char → Bool
  | [] => false
  | c :: rest => (decide (c = '[') && bracketBody rest) || hasPlaceholder rest

/-- String-level wrapper of hasPlaceholder, the test the adaptation flow runs
on the model output. -/
def placeholderRegexTest (s : String) : Bool :=
  hasPlaceholder s.data

/-- Error kinds of the three throw sites in the post-processing of
adaptCvFlow (the spec names for the three thrown Error messages). -/
inductive AdaptError where
  | PlaceholderDetected
  | WordLimitExceeded
  | MissingRequiredSection
deriving DecidableEq

instance {α β : Type} [DecidableEq α] [DecidableEq β] : DecidableEq (Except α β) := fun a b =>
  match a, b with
  | Except.error x, Except.error y =>
    if h : x = y then isTrue (by rw [h]) else isFalse (by simp [h])
  | Except.error _, Except.ok _ => isFalse (fun hc => Except.noConfusion hc)
  | Except.ok _, Except.error _ => isFalse (fun hc => Except.noConfusion hc)
  | Except.ok x, Except.ok y =>
    if h : x = y then isTrue (by rw [h]) else isFalse (by simp [h])

/-- The requiredSections constant of the adaptation flow. -/
def requiredSections : List String :=
  ["Contact Information", "Work Experience", "Skills"]

/-- Post-processing validation body of adaptCvFlow (strictest revision,
src/ai/flows/cv-adaptation.ts lines 158 to 187).  The model output field
adaptedCv is the argument; the three checks run in source order: placeholder
regex test, then word count via split on whitespace runs, then required
section substrings.  A throw is an error value. -/
def adaptCvFlow (adaptedCv : String) : Except AdaptError String :=
  if placeholderRegexTest adaptedCv then
    Except.error AdaptError.PlaceholderDetected
  else
    let wordCount := (jsSplitWhitespace adaptedCv).length
    if 700 < wordCount then
      Except.error AdaptError.WordLimitExceeded
    else
      let missingSections := requiredSections.filter (fun sec => !containsStr adaptedCv sec)
      if 0 < missingSections.length then
        Except.error AdaptError.MissingRequiredSection
      else
        Except.ok adaptedCv

/-- Number of whitespace-delimited words of a string: the nonempty tokens of
the whitespace split.  This is the count the spec speaks about; the code of
the adaptation flow uses the raw split length, which also counts the empty
boundary tokens and is therefore never smaller. -/
def whitespaceDelimitedWords (s : String) : Nat :=
  ((jsSplitWhitespace s).filter (fun t => !(t == ""))).length

/-- First entry of the links constant of generateCoverLetterFlow. -/
def portfolioLink : String := "Portfolio: https://abbeyscript.netlify.app"

/-- Second entry of the links constant of generateCoverLetterFlow. -/
def githubLink : String := "GitHub: https://github.com/HARBBEY21166"

/-- Third entry of the links constant of generateCoverLetterFlow. -/
def linkedinLink : String := "LinkedIn: https://www.linkedin.com/in/abbey0/"

/-- The canonical contact links constant of generateCoverLetterFlow. -/
def links : List String := [portfolioLink, githubLink, linkedinLink]

/-- Splits a character list at every occurrence of the two-character
separator made of a colon and a space, scanning left to right; acc holds the
current piece in reverse.  Model of the JavaScript split on that separator. -/
def splitColonSpaceAux (acc : List Char) : List Char → List (List Char)
  | ':' :: ' ' :: rest => acc.reverse :: splitColonSpaceAux [] rest
  | c :: rest => splitColonSpaceAux (c :: acc) rest
  | [] => [acc.reverse]

/-- Model of the JavaScript expression splitting a link entry on a colon and
a space and taking index 1: the URL part of a canonical link entry. -/
def linkUrl (link : String) : String :=
  String.mk ((splitColonSpaceAux [] link.data).getD 1 [])

/-- Deterministic body of generateCoverLetterFlow
(src/ai/flows/cover-letter-generation.ts lines 117 to 142), the link-append
post-processing step, with the model output field coverLetter as argument.
Every canonical link whose URL is not yet a substring of the letter is
appended; the appended block is separated from the letter by a blank line and
the entries are joined by newlines.  String concatenation is associative, so
the grouping of the appends does not change the value. -/
def generateCoverLetterFlow (modelCoverLetter : String) : String :=
  let linksToAdd := links.filter (fun link => !containsStr modelCoverLetter (linkUrl link))
  if 0 < linksToAdd.length then
    modelCoverLetter ++ ("\n\n" ++ String.intercalate "\n" linksToAdd)
  else
    modelCoverLetter

/-- Number of occurrences of a nonempty pattern in a character list: the
number of starting positions at which the pattern is a prefix of the rest. -/
def countOcc (pat : List Char) : List Char → Nat
  | [] => 0
  | c :: rest => (if pat.isPrefixOf (c :: rest) then 1 else 0) + countOcc pat rest

/-- Errors the orchestration handler handleGenerate can record: an exception
propagated from a stage (rejected model call or validation throw inside a
flow), or one of the two throw sites of the handler itself, raised when a
stage resolves without a usable text (missing response record or empty
string, the falsy check of the code). -/
inductive RunError (E : Type) where
  | stage (e : E)
  | adaptFailed
  | letterFailed
deriving DecidableEq

/-- The component state of the page after a run of handleGenerate:
the two generated texts and the error banner (src/app/page.tsx lines 33 to 36;
isLoading is true only while the handler runs, hence always false in the
final state and omitted). -/
structure UiState (E : Type) where
  adaptedCvText : String
  coverLetterText : String
  error : Option (RunError E)
deriving DecidableEq

/-- Model of handleGenerate (src/app/page.tsx lines 47 to 93).  The two model
stages are suspension points, passed in as values: adaptRes is the outcome of
awaiting adaptCv (an error is a rejected promise, ok none a missing or falsy
response record, ok some a record with its adaptedCv field), and letterStage
maps the adapted CV to the outcome of awaiting generateCoverLetter.  The
returned flag records whether the letter stage was invoked in the run.  The
handler first clears both texts and the error; on a throw the catch block
only sets the error message, so a text already set stays set. -/
def handleGenerate {E : Type} (adaptRes : Except E (Option String))
    (letterStage : String → Except E (Option String)) : UiState E × Bool :=
  match adaptRes with
  | Except.error e =>
    ({ adaptedCvText := "", coverLetterText := "", error := some (RunError.stage e) }, false)
  | Except.ok adaptResp =>
    match adaptResp with
    | none =>
      ({ adaptedCvText := "", coverLetterText := "", error := some RunError.adaptFailed }, false)
    | some adaptedCv =>
      if adaptedCv = "" then
        ({ adaptedCvText := "", coverLetterText := "", error := some RunError.adaptFailed }, false)
      else
        match letterStage adaptedCv with
        | Except.error e =>
          ({ adaptedCvText := adaptedCv, coverLetterText := "",
             error := some (RunError.stage e) }, true)
        | Except.ok letterResp =>
          match letterResp with
          | none =>
            ({ adaptedCvText := adaptedCv, coverLetterText := "",
               error := some RunError.letterFailed }, true)
          | some coverLetter =>
            if coverLetter = "" then
              ({ adaptedCvText := adaptedCv, coverLetterText := "",
                 error := some RunError.letterFailed }, true)
            else
              ({ adaptedCvText := adaptedCv, coverLetterText := coverLetter,
                 error := none }, true)

/-- The zod form schema of the page (src/app/page.tsx lines 26 to 29): both
text fields must have length at least 50 and at most 10000. -/
def formSchema (originalCv jobDescription : String) : Bool :=
  decide (50 ≤ originalCv.length) && decide (originalCv.length ≤ 10000) &&
  decide (50 ≤ jobDescription.length) && decide (jobDescription.length ≤ 10000)

/-- Models form.handleSubmit with the zodResolver of formSchema
(src/app/page.tsx line 159 with lines 39 to 45): the submit handler
handleGenerate runs only when the schema accepts both fields; otherwise the
submission is rejected with field messages, the handler never runs and no
stage is invoked (the none branch). -/
def submitForm {E : Type} (originalCv jobDescription : String)
    (adaptRes : Except E (Option String))
    (letterStage : String → Except E (Option String)) : Option (UiState E × Bool) :=
  if formSchema originalCv jobDescription then
    some (handleGenerate adaptRes letterStage)
  else
    none

/-! Helper lemmas about countOcc, containsStr and hasPlaceholder. -/

/-- A pattern free of newlines is a prefix of x followed by a block starting
with a newline precisely when it is a prefix of x alone. -/
lemma isPrefixOf_append_boundary (pat : List Char) (x b : List Char) (hpat : '\n' ∉ pat)
    (hb : b.head? = some '\n') :
    pat.isPrefixOf (x ++ b) = pat.isPrefixOf x := by
  induction pat generalizing x with
  | nil => simp [List.isPrefixOf]
  | cons p ps ih =>
    cases x with
    | nil =>
      cases b with
      | nil => simp at hb
      | cons c bs =>
        simp only [List.head?] at hb
        have hc : c = '\n' := Option.some.inj hb
        subst hc
        have hp : (p == '\n') = false := by
          have : p ≠ '\n' := fun h => hpat (h ▸ List.mem_cons_self p ps)
          simpa using this
        simp [List.isPrefixOf, hp]
    | cons c xs =>
      have hps : '\n' ∉ ps := fun h => hpat (List.mem_cons_of_mem p h)
      simp [List.isPrefixOf, ih xs hps]

/-- Counting occurrences distributes over appending a block that starts with
a newline, for a newline-free pattern: no occurrence straddles the seam. -/
lemma countOcc_append (pat a b : List Char) (hpat : '\n' ∉ pat)
    (hb : b.head? = some '\n') :
    countOcc pat (a ++ b) = countOcc pat a + countOcc pat b := by
  induction a with
  | nil => simp [countOcc]
  | cons c as ih =>
    simp only [List.cons_append, countOcc, List.append_eq]
    rw [ih]
    have hpre : pat.isPrefixOf (c :: (as ++ b)) = pat.isPrefixOf (c :: as) := by
      have h := isPrefixOf_append_boundary pat (c :: as) b hpat hb
      simpa using h
    simp only [hpre]
    omega

/-- A nonempty pattern occurs a positive number of times precisely when it is
an infix. -/
lemma countOcc_pos_iff (pat l : List Char) (hp : pat ≠ []) :
    0 < countOcc pat l ↔ pat <:+: l := by
  induction l with
  | nil => simp [countOcc, hp]
  | cons c cs ih =>
    simp only [countOcc]
    rw [List.infix_cons_iff]
    constructor
    · intro h
      by_cases hpre : pat.isPrefixOf (c :: cs) = true
      · exact Or.inl (List.isPrefixOf_iff_prefix.mp hpre)
      · right
        apply ih.mp
        simpa [hpre] using h
    · rintro (h | h)
      · have hpre : pat.isPrefixOf (c :: cs) = true := List.isPrefixOf_iff_prefix.mpr h
        simp [hpre]
      · have := ih.mpr h
        omega

/-- containsStr decides the infix relation on the underlying lists. -/
lemma containsStr_iff (s pat : String) : containsStr s pat = true ↔ pat.data <:+: s.data := by
  simp [containsStr]

/-- For a nonempty pattern, containsStr agrees with positivity of countOcc. -/
lemma containsStr_iff_countOcc (s pat : String) (hp : pat.data ≠ []) :
    containsStr s pat = true ↔ 0 < countOcc pat.data s.data := by
  rw [containsStr_iff, countOcc_pos_iff pat.data s.data hp]

/-- A placeholder occurring in a suffix occurs in the whole list. -/
lemma hasPlaceholder_append_right (a b : List Char) (h : hasPlaceholder b = true) :
    hasPlaceholder (a ++ b) = true := by
  induction a with
  | nil => simpa using h
  | cons c cs ih => simp [hasPlaceholder, ih]

/-- A membership witness makes the Boolean contains true. -/
lemma contains_of_mem (c : Char) (l : List Char) (h : c ∈ l) : l.contains c = true := by
  simpa using List.elem_eq_true_of_mem h

/-- An explicit bracketed segment with a nonempty body free of closing
brackets makes the placeholder scanner fire at its opening bracket. -/
lemma hasPlaceholder_of_bracket (t b : List Char) (ht : t ≠ [])
    (htc : ∀ c ∈ t, c ≠ ']') :
    hasPlaceholder ('[' :: (t ++ ']' :: b)) = true := by
  cases t with
  | nil => exact absurd rfl ht
  | cons d ds =>
    have hd : decide (d = ']') = false := decide_eq_false (htc d (List.mem_cons_self d ds))
    have hcon : (ds ++ ']' :: b).contains ']' = true := contains_of_mem ']' _ (by simp)
    have hopen : decide ('[' = '[') = true := by decide
    simp only [List.cons_append, hasPlaceholder, bracketBody, hd, hcon, hopen,
      decide_True, Bool.not_false, Bool.and_true, Bool.true_and, Bool.and_self, Bool.true_or]

/-- Any string with an infix made of an opening bracket, a nonempty body free
of closing brackets, and a closing bracket passes the regex test. -/
lemma placeholderRegexTest_of_infix (s t : String) (ht : t ≠ "")
    (htc : ∀ c ∈ t.data, c ≠ ']')
    (hinf : ("[" ++ t ++ "]").data <:+: s.data) :
    placeholderRegexTest s = true := by
  obtain ⟨a, b, hab⟩ := hinf
  have htd : t.data ≠ [] := fun h => ht (show t = "" from String.ext h)
  have hone : ("[" : String).data = ['['] := rfl
  have htwo : ("]" : String).data = [']'] := rfl
  have hpat : ("[" ++ t ++ "]").data = '[' :: (t.data ++ [']']) := by
    rw [String.data_append, String.data_append, hone, htwo]
    simp
  have hs : s.data = a ++ ('[' :: (t.data ++ ']' :: b)) := by
    rw [← hab, hpat]
    simp
  show hasPlaceholder s.data = true
  rw [hs]
  exact hasPlaceholder_append_right a _ (hasPlaceholder_of_bracket t.data b htd htc)

/-! Claims about the adaptation stage post-processing. -/

/-- A model output with 701 whitespace-delimited words, no brackets and no
section headers: 701 copies of a single letter followed by a space. -/
def manyWords : String := String.join (List.replicate 701 "a ")

/-- C4 fails as stated: the claim asks for failure on any bracketed substring
with one or more characters between the brackets, but the regex of the code
requires the characters between the brackets to be different from the closing
bracket.  This input contains the three-character bracketed substring whose
body is a single closing bracket, yet the stage returns it unchanged. -/
theorem c4_counterexample :
    ("[" ++ "]" ++ "]").data <:+: ("Contact Information Work Experience Skills []] done" : String).data ∧
      ("]" : String) ≠ "" ∧
      adaptCvFlow "Contact Information Work Experience Skills []] done" =
        Except.ok "Contact Information Work Experience Skills []] done" :=
  ⟨by decide, by decide, by decide⟩

/-- C4 (amended): for every model output whose adaptedCv contains a bracketed
substring made of an opening bracket, one or more characters none of which is
a closing bracket, and a closing bracket, the adaptation stage (strictest
revision) fails with the PlaceholderDetected error instead of returning a
result. -/
theorem c4_amended (s t : String) (ht : t ≠ "") (htc : ∀ c ∈ t.data, c ≠ ']')
    (hinf : ("[" ++ t ++ "]").data <:+: s.data) :
    adaptCvFlow s = Except.error AdaptError.PlaceholderDetected := by
  have h := placeholderRegexTest_of_infix s t ht htc hinf
  simp [adaptCvFlow, h]

/-- Witness for c4_amended at the placeholder from end-to-end scenario B. -/
theorem c4_amended_witness :
    ("Your Website" : String) ≠ "" ∧ (∀ c ∈ ("Your Website" : String).data, c ≠ ']') ∧
      ("[" ++ "Your Website" ++ "]").data <:+:
        ("Dear team, see [Your Website] for more." : String).data ∧
      adaptCvFlow "Dear team, see [Your Website] for more." =
        Except.error AdaptError.PlaceholderDetected :=
  ⟨by decide, by decide, by decide,
    c4_amended "Dear team, see [Your Website] for more." "Your Website"
      (by decide) (by decide) (by decide)⟩

/-- C5 fails as stated: an output over the word limit that also contains a
bracketed placeholder fails with PlaceholderDetected, not WordLimitExceeded,
because the placeholder check runs first. -/
theorem c5_counterexample :
    700 < whitespaceDelimitedWords ("[x] " ++ manyWords) ∧
      adaptCvFlow ("[x] " ++ manyWords) = Except.error AdaptError.PlaceholderDetected ∧
      (Except.error AdaptError.PlaceholderDetected : Except AdaptError String) ≠
        Except.error AdaptError.WordLimitExceeded :=
  ⟨by decide, by decide, by decide⟩

/-- C5 (amended): for every model output whose adaptedCv contains no
bracketed placeholder (in the sense of the regex of the code) and has a
whitespace-delimited word count greater than 700, the adaptation stage
(strictest revision) fails with the WordLimitExceeded error instead of
returning a result.  The count of the code is the raw length of the
whitespace split, which also counts empty boundary tokens and is never
smaller than the number of whitespace-delimited words, so a count of words
above 700 always trips the check. -/
theorem c5_amended (s : String) (hp : placeholderRegexTest s = false)
    (hw : 700 < whitespaceDelimitedWords s) :
    adaptCvFlow s = Except.error AdaptError.WordLimitExceeded := by
  have hle : whitespaceDelimitedWords s ≤ (jsSplitWhitespace s).length :=
    List.length_filter_le _ _
  have hgt : 700 < (jsSplitWhitespace s).length := lt_of_lt_of_le hw hle
  simp [adaptCvFlow, hp, hgt]

/-- Witness for c5_amended at a 701-word output. -/
theorem c5_amended_witness :
    placeholderRegexTest manyWords = false ∧ 700 < whitespaceDelimitedWords manyWords ∧
      adaptCvFlow manyWords = Except.error AdaptError.WordLimitExceeded :=
  ⟨by decide, by decide, c5_amended manyWords (by decide) (by decide)⟩

/-- C6 fails as stated: an output missing the Skills section that also
contains a bracketed placeholder fails with PlaceholderDetected, not
MissingRequiredSection, because the placeholder check runs first. -/
theorem c6_counterexample :
    containsStr "[x]" "Skills" = false ∧
      adaptCvFlow "[x]" = Except.error AdaptError.PlaceholderDetected ∧
      (Except.error AdaptError.PlaceholderDetected : Except AdaptError String) ≠
        Except.error AdaptError.MissingRequiredSection :=
  ⟨by decide, by decide, by decide⟩

/-- C6 (amended): for every model output whose adaptedCv contains no
bracketed placeholder, whose whitespace split length is at most 700, and
which lacks any of the literal substrings Contact Information, Work
Experience or Skills, the adaptation stage (strictest revision) fails with
the MissingRequiredSection error instead of returning a result. -/
theorem c6_amended (s : String) (hp : placeholderRegexTest s = false)
    (hw : (jsSplitWhitespace s).length ≤ 700)
    (hm : containsStr s "Contact Information" = false ∨
      containsStr s "Work Experience" = false ∨ containsStr s "Skills" = false) :
    adaptCvFlow s = Except.error AdaptError.MissingRequiredSection := by
  have hnw : ¬ 700 < (jsSplitWhitespace s).length := by omega
  have hsec : ∃ sec ∈ requiredSections, (!containsStr s sec) = true := by
    rcases hm with h | h | h
    · exact ⟨"Contact Information", by simp [requiredSections], by simp [h]⟩
    · exact ⟨"Work Experience", by simp [requiredSections], by simp [h]⟩
    · exact ⟨"Skills", by simp [requiredSections], by simp [h]⟩
  obtain ⟨sec, hsecmem, hsecp⟩ := hsec
  have hmem : sec ∈ requiredSections.filter (fun sec => !containsStr s sec) :=
    List.mem_filter.mpr ⟨hsecmem, hsecp⟩
  have hmiss : 0 < (requiredSections.filter (fun sec => !containsStr s sec)).length :=
    List.length_pos.mpr (List.ne_nil_of_mem hmem)
  simp [adaptCvFlow, hp, hnw, hmiss]

/-- Witness for c6_amended at a short output lacking the Skills section. -/
theorem c6_amended_witness :
    placeholderRegexTest "short text" = false ∧
      (jsSplitWhitespace "short text").length ≤ 700 ∧
      containsStr "short text" "Skills" = false ∧
      adaptCvFlow "short text" = Except.error AdaptError.MissingRequiredSection :=
  ⟨by decide, by decide, by decide,
    c6_amended "short text" (by decide) (by decide) (Or.inr (Or.inr (by decide)))⟩

/-- C10: the three post-processing checks of the adaptation stage run in the
fixed order placeholder, word count, required sections, and the stage reports
exactly one error (the Except value carries a single error): on any output
with a placeholder the result is PlaceholderDetected no matter what else is
violated; with no placeholder and a split length above 700 the result is
WordLimitExceeded no matter which sections are missing; and the section error
surfaces only when the two earlier checks pass. -/
theorem c10_priority (s : String) :
    (placeholderRegexTest s = true →
      adaptCvFlow s = Except.error AdaptError.PlaceholderDetected) ∧
    (placeholderRegexTest s = false → 700 < (jsSplitWhitespace s).length →
      adaptCvFlow s = Except.error AdaptError.WordLimitExceeded) ∧
    (placeholderRegexTest s = false → (jsSplitWhitespace s).length ≤ 700 →
      0 < (requiredSections.filter (fun sec => !containsStr s sec)).length →
      adaptCvFlow s = Except.error AdaptError.MissingRequiredSection) := by
  refine ⟨fun h => by simp [adaptCvFlow, h],
    fun hp hw => by simp [adaptCvFlow, hp, hw],
    fun hp hw hm => ?_⟩
  have hnw : ¬ 700 < (jsSplitWhitespace s).length := by omega
  simp [adaptCvFlow, hp, hnw, hm]

/-- Witness for c10_priority: an output violating placeholder and section
rules at once reports PlaceholderDetected, and an output violating word and
section rules at once without a placeholder reports WordLimitExceeded. -/
theorem c10_priority_witness :
    (placeholderRegexTest "[a] word" = true ∧
      adaptCvFlow "[a] word" = Except.error AdaptError.PlaceholderDetected) ∧
    (placeholderRegexTest manyWords = false ∧ 700 < (jsSplitWhitespace manyWords).length ∧
      adaptCvFlow manyWords = Except.error AdaptError.WordLimitExceeded) :=
  ⟨⟨by decide, (c10_priority "[a] word").1 (by decide)⟩,
   ⟨by decide, by decide, (c10_priority manyWords).2.1 (by decide) (by decide)⟩⟩

/-! Claims about the cover letter link-append step. -/

/-- Specialisation of countOcc_append to a block starting with the blank line
the flow inserts: the head of the block is a newline by construction. -/
lemma countOcc_append_nl2 (pat a rest : List Char) (hpat : '\n' ∉ pat) :
    countOcc pat (a ++ '\n' :: '\n' :: rest) =
      countOcc pat a + countOcc pat ('\n' :: '\n' :: rest) :=
  countOcc_append pat a ('\n' :: '\n' :: rest) hpat rfl

/-- Occurrences of the portfolio URL after the append step: unchanged when
the URL was already present, one more when it was absent. -/
lemma countOcc_flow_portfolio (letter : String) :
    countOcc (linkUrl portfolioLink).data (generateCoverLetterFlow letter).data =
      countOcc (linkUrl portfolioLink).data letter.data +
        (if containsStr letter (linkUrl portfolioLink) then 0 else 1) := by
  unfold generateCoverLetterFlow
  cases h1 : containsStr letter (linkUrl portfolioLink) <;>
    cases h2 : containsStr letter (linkUrl githubLink) <;>
      cases h3 : containsStr letter (linkUrl linkedinLink) <;>
        simp [links, h1, h2, h3]
  all_goals rw [countOcc_append_nl2 (linkUrl portfolioLink).data letter.data _ (by decide)]
  all_goals rfl

/-- Occurrences of the code-hosting profile URL after the append step. -/
lemma countOcc_flow_github (letter : String) :
    countOcc (linkUrl githubLink).data (generateCoverLetterFlow letter).data =
      countOcc (linkUrl githubLink).data letter.data +
        (if containsStr letter (linkUrl githubLink) then 0 else 1) := by
  unfold generateCoverLetterFlow
  cases h1 : containsStr letter (linkUrl portfolioLink) <;>
    cases h2 : containsStr letter (linkUrl githubLink) <;>
      cases h3 : containsStr letter (linkUrl linkedinLink) <;>
        simp [links, h1, h2, h3]
  all_goals rw [countOcc_append_nl2 (linkUrl githubLink).data letter.data _ (by decide)]
  all_goals rfl

/-- Occurrences of the professional-network profile URL after the append
step. -/
lemma countOcc_flow_linkedin (letter : String) :
    countOcc (linkUrl linkedinLink).data (generateCoverLetterFlow letter).data =
      countOcc (linkUrl linkedinLink).data letter.data +
        (if containsStr letter (linkUrl linkedinLink) then 0 else 1) := by
  unfold generateCoverLetterFlow
  cases h1 : containsStr letter (linkUrl portfolioLink) <;>
    cases h2 : containsStr letter (linkUrl githubLink) <;>
      cases h3 : containsStr letter (linkUrl linkedinLink) <;>
        simp [links, h1, h2, h3]
  all_goals rw [countOcc_append_nl2 (linkUrl linkedinLink).data letter.data _ (by decide)]
  all_goals rfl

/-- Common consequence of the three counting lemmas: the URL occurs in the
output, and exactly once when the input held it at most once. -/
lemma flowCountFacts (letter u : String) (hne : u.data ≠ [])
    (hmaster : countOcc u.data (generateCoverLetterFlow letter).data =
      countOcc u.data letter.data + (if containsStr letter u then 0 else 1)) :
    0 < countOcc u.data (generateCoverLetterFlow letter).data ∧
      (countOcc u.data letter.data ≤ 1 →
        countOcc u.data (generateCoverLetterFlow letter).data = 1) := by
  cases hc : containsStr letter u with
  | true =>
    have hpos : 0 < countOcc u.data letter.data :=
      (containsStr_iff_countOcc letter u hne).mp hc
    have heq : countOcc u.data (generateCoverLetterFlow letter).data =
        countOcc u.data letter.data := by
      rw [hmaster, hc]
      simp
    rw [heq]
    exact ⟨hpos, fun h => by omega⟩
  | false =>
    have hz : countOcc u.data letter.data = 0 := by
      by_contra h
      have hmem : containsStr letter u = true :=
        (containsStr_iff_countOcc letter u hne).mpr (Nat.pos_of_ne_zero h)
      rw [hc] at hmem
      exact Bool.false_ne_true hmem
    have heq : countOcc u.data (generateCoverLetterFlow letter).data = 1 := by
      rw [hmaster, hc, hz]
      simp
    rw [heq]
    exact ⟨by omega, fun h => rfl⟩

/-- The flow output always carries each canonical URL as a substring. -/
lemma containsStr_flow (letter u : String) (hne : u.data ≠ [])
    (hmaster : countOcc u.data (generateCoverLetterFlow letter).data =
      countOcc u.data letter.data + (if containsStr letter u then 0 else 1)) :
    containsStr (generateCoverLetterFlow letter) u = true :=
  (containsStr_iff_countOcc (generateCoverLetterFlow letter) u hne).mpr
    (flowCountFacts letter u hne hmaster).1

/-- When all three canonical URLs are already present there is nothing to
add and the flow returns its input unchanged. -/
lemma generateCoverLetterFlow_of_all_present (s : String)
    (h1 : containsStr s (linkUrl portfolioLink) = true)
    (h2 : containsStr s (linkUrl githubLink) = true)
    (h3 : containsStr s (linkUrl linkedinLink) = true) :
    generateCoverLetterFlow s = s := by
  unfold generateCoverLetterFlow
  simp [links, h1, h2, h3]

/-- The flow never returns the empty string: its output carries the
portfolio URL, and the empty string carries nothing. -/
lemma generateCoverLetterFlow_ne_empty (s : String) : generateCoverLetterFlow s ≠ "" := by
  intro h
  have hpos : 0 < countOcc (linkUrl portfolioLink).data (generateCoverLetterFlow s).data :=
    (flowCountFacts s (linkUrl portfolioLink) (by decide) (countOcc_flow_portfolio s)).1
  rw [h] at hpos
  exact absurd hpos (by decide)

/-- C1 fails as stated: a model output that already contains the portfolio
URL twice keeps both occurrences, since the step only appends absent links
and never removes duplicates, so the final letter does not carry that URL
exactly once. -/
theorem c1_counterexample :
    countOcc (linkUrl portfolioLink).data
        (generateCoverLetterFlow
          "See https://abbeyscript.netlify.app and https://abbeyscript.netlify.app").data = 2 ∧
      (2 : Nat) ≠ 1 :=
  ⟨by decide, by decide⟩

/-- C1 (amended): for every model output, the letter returned by the
post-processing of generateCoverLetterFlow contains each of the three
canonical contact URLs as a substring at least once, and exactly once
provided the model output contained that URL at most once. -/
theorem c1_links_once (letter : String) :
    (0 < countOcc (linkUrl portfolioLink).data (generateCoverLetterFlow letter).data ∧
      (countOcc (linkUrl portfolioLink).data letter.data ≤ 1 →
        countOcc (linkUrl portfolioLink).data (generateCoverLetterFlow letter).data = 1)) ∧
    (0 < countOcc (linkUrl githubLink).data (generateCoverLetterFlow letter).data ∧
      (countOcc (linkUrl githubLink).data letter.data ≤ 1 →
        countOcc (linkUrl githubLink).data (generateCoverLetterFlow letter).data = 1)) ∧
    (0 < countOcc (linkUrl linkedinLink).data (generateCoverLetterFlow letter).data ∧
      (countOcc (linkUrl linkedinLink).data letter.data ≤ 1 →
        countOcc (linkUrl linkedinLink).data (generateCoverLetterFlow letter).data = 1)) :=
  ⟨flowCountFacts letter (linkUrl portfolioLink) (by decide) (countOcc_flow_portfolio letter),
   flowCountFacts letter (linkUrl githubLink) (by decide) (countOcc_flow_github letter),
   flowCountFacts letter (linkUrl linkedinLink) (by decide) (countOcc_flow_linkedin letter)⟩

/-- Witness for c1_links_once at the empty model output. -/
theorem c1_links_once_witness :
    countOcc (linkUrl portfolioLink).data ("" : String).data ≤ 1 ∧
      countOcc (linkUrl portfolioLink).data (generateCoverLetterFlow "").data = 1 ∧
      countOcc (linkUrl githubLink).data (generateCoverLetterFlow "").data = 1 ∧
      countOcc (linkUrl linkedinLink).data (generateCoverLetterFlow "").data = 1 :=
  ⟨by decide, (c1_links_once "").1.2 (by decide), (c1_links_once "").2.1.2 (by decide),
    (c1_links_once "").2.2.2 (by decide)⟩

/-- C3: the link-append step is idempotent: applied to its own output it
returns that output unchanged, because the first application leaves every
canonical URL present and the second therefore has nothing to add.  In
particular a letter already containing the portfolio URL never receives the
portfolio link again. -/
theorem c3_idempotent (letter : String) :
    generateCoverLetterFlow (generateCoverLetterFlow letter) = generateCoverLetterFlow letter :=
  generateCoverLetterFlow_of_all_present (generateCoverLetterFlow letter)
    (containsStr_flow letter (linkUrl portfolioLink) (by decide) (countOcc_flow_portfolio letter))
    (containsStr_flow letter (linkUrl githubLink) (by decide) (countOcc_flow_github letter))
    (containsStr_flow letter (linkUrl linkedinLink) (by decide) (countOcc_flow_linkedin letter))

/-! Claims about the orchestration handler and the form schema. -/

/-- C2 fails as stated: when the adaptation stage succeeds and the letter
stage rejects (simulated network failure), the UI state of the resulting
Error state still holds the adapted CV, because the handler stores the
adapted text before invoking the letter stage and the catch block only sets
the error message without clearing it. -/
theorem c2_counterexample :
    (handleGenerate (Except.ok (some "Adapted CV body") : Except String (Option String))
        (fun _ => Except.error "network failure")).1.adaptedCvText = "Adapted CV body" ∧
      ("Adapted CV body" : String) ≠ "" ∧
      (handleGenerate (Except.ok (some "Adapted CV body") : Except String (Option String))
        (fun _ => Except.error "network failure")).1.error =
        some (RunError.stage "network failure") :=
  ⟨by decide, by decide, by decide⟩

/-- C2 (amended): when the cover-letter stage fails after the adaptation
stage has succeeded with a non-empty adapted CV, the orchestration handler
reaches the Error state with the stage error recorded and the cover letter
text empty, but the UI state holding the adapted CV retains the adapted CV
(it is cleared only at the start of the next submission, not in this run). -/
theorem c2_retains_adapted_cv {E : Type} (a : String) (ha : a ≠ "") (e : E) :
    handleGenerate (Except.ok (some a)) (fun _ => Except.error e) =
      ({ adaptedCvText := a, coverLetterText := "", error := some (RunError.stage e) }, true) := by
  simp [handleGenerate, ha]

/-- Witness for c2_retains_adapted_cv at a concrete failing run. -/
theorem c2_retains_adapted_cv_witness :
    ("My adapted CV" : String) ≠ "" ∧
      handleGenerate (Except.ok (some "My adapted CV") : Except String (Option String))
          (fun _ => Except.error "boom") =
        ({ adaptedCvText := "My adapted CV", coverLetterText := "",
           error := some (RunError.stage "boom") }, true) :=
  ⟨by decide, c2_retains_adapted_cv "My adapted CV" (by decide) "boom"⟩

/-- C7: whenever the adaptation stage fails (its awaited call rejects, which
is how a validation throw such as PlaceholderDetected on an output containing
a bracketed placeholder surfaces to the handler), the orchestration handler
reaches the Error state carrying that stage error with both texts empty, and
the cover-letter stage is never invoked in that run (the returned flag is
false), for every letter stage. -/
theorem c7_no_letter_stage_on_adapt_failure {E : Type} (e : E)
    (letterStage : String → Except E (Option String)) :
    handleGenerate (Except.error e) letterStage =
      ({ adaptedCvText := "", coverLetterText := "", error := some (RunError.stage e) }, false) :=
  rfl

/-- C8: for every form input in which either field has length below 50 or
above 10000, the submission is rejected by the form schema and the handler
never runs, so neither model-invoking stage is called, whatever the stages
would return. -/
theorem c8_rejects_out_of_range {E : Type} (originalCv jobDescription : String)
    (adaptRes : Except E (Option String))
    (letterStage : String → Except E (Option String))
    (h : originalCv.length < 50 ∨ 10000 < originalCv.length ∨
      jobDescription.length < 50 ∨ 10000 < jobDescription.length) :
    submitForm originalCv jobDescription adaptRes letterStage = none := by
  have hf : formSchema originalCv jobDescription = false := by
    unfold formSchema
    rcases h with h | h | h | h <;> simp <;> omega
  simp [submitForm, hf]

/-- Witness for c8_rejects_out_of_range at a short CV. -/
theorem c8_rejects_out_of_range_witness :
    ("too short" : String).length < 50 ∧
      submitForm "too short"
          "A job description that is long enough to pass the lower bound of fifty."
          (Except.error () : Except Unit (Option String)) (fun _ => Except.error ()) = none :=
  ⟨by decide,
    c8_rejects_out_of_range "too short"
      "A job description that is long enough to pass the lower bound of fifty."
      (Except.error ()) (fun _ => Except.error ()) (Or.inl (by decide))⟩

/-- C9: the cover-letter stage post-processing returns a non-empty letter on
every model output, because the append step adds the canonical link block
whenever any canonical URL is absent; consequently, when the letter stage is
the flow (its resolved record always carries the processed letter), the
non-empty check of the orchestrator on the letter never fires: the run never
ends with the letter-failed error, whatever the adaptation outcome and the
raw model letter. -/
theorem c9_letter_never_empty :
    (∀ s : String, generateCoverLetterFlow s ≠ "") ∧
      (∀ (E : Type) (adaptRes : Except E (Option String))
        (letterModel : String → Except E String),
        (handleGenerate adaptRes
            (fun a => (letterModel a).map (fun out => some (generateCoverLetterFlow out)))).1.error ≠
          some RunError.letterFailed) := by
  refine ⟨generateCoverLetterFlow_ne_empty, ?_⟩
  intro E adaptRes letterModel
  cases adaptRes with
  | error e => simp [handleGenerate]
  | ok resp =>
    cases resp with
    | none => simp [handleGenerate]
    | some a =>
      by_cases ha : a = ""
      · simp [handleGenerate, ha]
      · cases hlm : letterModel a with
        | error e => simp [handleGenerate, ha, hlm, Except.map]
        | ok out =>
          simp [handleGenerate, ha, hlm, Except.map, generateCoverLetterFlow_ne_empty out]

example : jsSplitWhitespace "" = [""] := by decide
example : jsSplitWhitespace " a  b " = ["", "a", "b", ""] := by decide
example : whitespaceDelimitedWords " a  b " = 2 := by decide
example : placeholderRegexTest "a []] b" = false := by decide
example : placeholderRegexTest "a [x] b" = true := by decide
example : linkUrl "Portfolio: https://abbeyscript.netlify.app" = "https://abbeyscript.netlify.app" := by decide
example : containsStr "abc def" "c d" = true := by decide
example : adaptCvFlow "[x]" = Except.error AdaptError.PlaceholderDetected := by decide
example :
    generateCoverLetterFlow "" =
      "\n\nPortfolio: https://abbeyscript.netlify.app\nGitHub: https://github.com/HARBBEY21166\nLinkedIn: https://www.linkedin.com/in/abbey0/" := by
  decide
